import Mathlib

/-!
Verification of the `flow` weight-conversion scripts.

The repository consists of four standalone Python scripts:

* `tools/convert_weights.py` — NumPy `.npz` archive to safetensors.
* `tools/coreml_converter/convert_moonshine.py` — Moonshine ASR to CoreML.
* `tools/coreml_converter/convert_t5.py` — T5 grammar correction to CoreML.
* `tools/coreml_converter/convert_silero_vad.py` — Silero VAD to CoreML.

The development below shallowly embeds:

* the shape/range constants and the CoreML input declarations the scripts
  pass to `ct.convert` (`TensorInputSpec`, `RangeDim`);
* the wrapper modules' forward functions, over abstract pretrained models
  (`MoonshineModelAbs`, `T5ModelAbs`, `SileroModelAbs`);
* the tokenizer-vocabulary inversion (`invertVocab`, a faithful model of
  Python dict comprehension semantics over association lists);
* the control flow of each script's `main` as a pure function from its
  boolean command-line flags (and oracles for the outcomes of the fallible
  external-library calls) to a run result: an ordered trace of
  load/wrap/trace/convert/save/validate events, the list of files written
  (with format and writer), caught-error logs, and the exit code.
-/

namespace Flow

/-! ## Python `int()` over exact rationals

The audio constants in `convert_moonshine.py` are computed as
`int(seconds * 16000)` where `seconds` is a float literal (`1.0`, `30.0`,
`5.0`).  These literals and their products with 16000 are exactly
representable in binary floating point, so the float arithmetic is exact
and is modelled by rational arithmetic.  Python `int()` truncates toward
zero, which `pyInt` implements on `ℚ`. -/

/-- Python `int()` applied to an exact rational: truncation toward zero. -/
def pyInt (q : ℚ) : Int := Int.sign q.num * ((q.num.natAbs / q.den : Nat) : Int)

/-! ## Constants from `convert_moonshine.py` (lines 36-47) -/

def SAMPLE_RATE : Int := 16000
def MIN_AUDIO_SECONDS : ℚ := 1
def MAX_AUDIO_SECONDS : ℚ := 30
def DEFAULT_AUDIO_SECONDS : ℚ := 5

def MIN_AUDIO_SAMPLES : Int := pyInt (MIN_AUDIO_SECONDS * (SAMPLE_RATE : ℚ))
def MAX_AUDIO_SAMPLES : Int := pyInt (MAX_AUDIO_SECONDS * (SAMPLE_RATE : ℚ))
def DEFAULT_AUDIO_SAMPLES : Int := pyInt (DEFAULT_AUDIO_SECONDS * (SAMPLE_RATE : ℚ))

def MAX_OUTPUT_TOKENS : Int := 448

/-! ## Constants from `convert_t5.py` (lines 42-49) -/

def MIN_INPUT_LENGTH : Int := 1
def MAX_INPUT_LENGTH : Int := 512
def DEFAULT_INPUT_LENGTH : Int := 64

def MIN_OUTPUT_LENGTH : Int := 1
def MAX_OUTPUT_LENGTH : Int := 512
def DEFAULT_OUTPUT_LENGTH : Int := 64

/-! ## CoreML tensor input declarations

`ct.TensorType(name=..., shape=ct.Shape(...), dtype=...)` declarations are
embedded as `TensorInputSpec`.  A shape dimension is either a fixed size,
a `ct.RangeDim(lower_bound, upper_bound, default)`, or a model-dependent
symbolic size (such as the hidden size, read from the loaded config). -/

structure RangeDim where
  lower_bound : Int
  upper_bound : Int
  default : Int
  deriving DecidableEq, Repr

inductive Dim
  | fixed (n : Int)
  | range (r : RangeDim)
  | symbolic (s : String)
  deriving DecidableEq, Repr

inductive DType
  | float32
  | int32
  | float
  deriving DecidableEq, Repr

structure TensorInputSpec where
  name : String
  shape : List Dim
  dtype : DType
  deriving DecidableEq, Repr

/-- The `inputs` list passed to `ct.convert` in
`convert_moonshine.py::convert_encoder_to_coreml` (lines 250-265). -/
def moonshineEncoderInputs : List TensorInputSpec :=
  [{ name := "input_values",
     shape := [.fixed 1,
               .range ⟨MIN_AUDIO_SAMPLES, MAX_AUDIO_SAMPLES, DEFAULT_AUDIO_SAMPLES⟩],
     dtype := .float32 }]

/-- The `inputs` list passed to `ct.convert` in
`convert_t5.py::convert_encoder_to_coreml` (lines 269-284). -/
def t5EncoderInputs : List TensorInputSpec :=
  [{ name := "input_ids",
     shape := [.fixed 1,
               .range ⟨MIN_INPUT_LENGTH, MAX_INPUT_LENGTH, DEFAULT_INPUT_LENGTH⟩],
     dtype := .int32 }]

/-- The `inputs` list passed to `ct.convert` in
`convert_t5.py::convert_decoder_to_coreml` (lines 320-350).  The
decoder's `decoder_input_ids` defaults to 1 (decode one token at a time);
the `encoder_hidden_states` third dimension is the model's `d_model`. -/
def t5DecoderInputs : List TensorInputSpec :=
  [{ name := "decoder_input_ids",
     shape := [.fixed 1,
               .range ⟨MIN_OUTPUT_LENGTH, MAX_OUTPUT_LENGTH, 1⟩],
     dtype := .int32 },
   { name := "encoder_hidden_states",
     shape := [.fixed 1,
               .range ⟨MIN_INPUT_LENGTH, MAX_INPUT_LENGTH, DEFAULT_INPUT_LENGTH⟩,
               .symbolic "d_model"],
     dtype := .float32 }]

/-- The `inputs` list passed to `ct.convert` in
`convert_t5.py::convert_combined_to_coreml` (lines 384-413). -/
def t5CombinedInputs : List TensorInputSpec :=
  [{ name := "input_ids",
     shape := [.fixed 1,
               .range ⟨MIN_INPUT_LENGTH, MAX_INPUT_LENGTH, DEFAULT_INPUT_LENGTH⟩],
     dtype := .int32 },
   { name := "decoder_input_ids",
     shape := [.fixed 1,
               .range ⟨MIN_OUTPUT_LENGTH, MAX_OUTPUT_LENGTH, 1⟩],
     dtype := .int32 }]

/-! ## Run traces

Each script's `main` is a straight-line program; the steps it performs on
each artifact are recorded as an ordered event trace.  File writes record
the file name, its format, and whether the bytes are written by code in
this repository (`open` + `json.dump`) or by an external library
(`coremltools`' `mlmodel.save`, `safetensors`' `save_file`,
`transformers`' `save_pretrained`). -/

inductive Step
  | load
  | wrap
  | tracing
  | converting
  | save
  | validate
  deriving DecidableEq, Repr

/-- Position of a step in the fixed `load → wrap → trace → convert → save`
pipeline; validation comes after everything else. -/
def Step.idx : Step → Nat
  | .load => 0
  | .wrap => 1
  | .tracing => 2
  | .converting => 3
  | .save => 4
  | .validate => 5

inductive Artifact
  | model
  | vocabFile
  | tokenizerDir
  | combined
  | encoder
  | decoder
  | sileroVAD
  | sileroVADfp16
  | energyVAD
  | weightsOut
  deriving DecidableEq, Repr

def allArtifacts : List Artifact :=
  [.model, .vocabFile, .tokenizerDir, .combined, .encoder, .decoder,
   .sileroVAD, .sileroVADfp16, .energyVAD, .weightsOut]

structure Event where
  artifact : Artifact
  step : Step
  deriving DecidableEq, Repr

inductive FileFormat
  | json
  | mlpackage
  | safetensors
  | tokenizerFiles
  deriving DecidableEq, Repr

inductive Writer
  | repoCode
  | externalLibrary
  deriving DecidableEq, Repr

structure FileWrite where
  name : String
  format : FileFormat
  writer : Writer
  deriving DecidableEq, Repr

/-- Result of one script invocation: the ordered step trace, the files
written, the messages printed from `except` blocks, whether an exception
was raised (and caught) somewhere, and the process exit code. -/
structure RunResult where
  events : List Event
  writes : List FileWrite
  errorLogs : List String
  errorRaised : Bool
  exitCode : Nat
  deriving DecidableEq, Repr

/-- The step indices recorded for one artifact, in trace order. -/
def stepsOf (a : Artifact) (tr : List Event) : List Nat :=
  (tr.filter (fun e => e.artifact == a)).map (fun e => e.step.idx)

def strictlyIncreasing : List Nat → Bool
  | [] => true
  | [_] => true
  | a :: b :: t => (a < b) && strictlyIncreasing (b :: t)

/-- Every artifact's steps appear in the pipeline order
load < wrap < trace < convert < save (< validate), each at most once. -/
def linearRun (tr : List Event) : Bool :=
  allArtifacts.all (fun a => strictlyIncreasing (stepsOf a tr))

/-! ## `convert_moonshine.py::main` (lines 531-614)

Flags: `--skip-validation`, `--no-quantize`, `--combined-only`,
`--split-only`.  The `--no-quantize` flag only toggles a log message
inside `convert_encoder_to_coreml`/`convert_decoder_to_coreml`
(Float16 is applied via `compute_precision` either way), so it does not
change the trace.  The run is modelled on the path where no library call
raises (the script installs no handler around them). -/

def moonshineVocabWrite : FileWrite :=
  { name := "moonshine_vocab.json", format := .json, writer := .repoCode }

def moonshineMain (skipValidation _noQuantize combinedOnly splitOnly : Bool) : RunResult :=
  let generateCombined := !splitOnly
  let generateSplit := !combinedOnly
  -- load_moonshine_model, then save_tokenizer_vocab (open + json.dump)
  let ev0 : List Event := [⟨.model, .load⟩, ⟨.vocabFile, .save⟩]
  let w0 : List FileWrite := [moonshineVocabWrite]
  -- convert_combined_model: CombinedWrapper, torch.jit.trace, ct.convert, mlmodel.save
  let evC : List Event :=
    if generateCombined then
      [⟨.combined, .wrap⟩, ⟨.combined, .tracing⟩,
       ⟨.combined, .converting⟩, ⟨.combined, .save⟩]
    else []
  let wC : List FileWrite :=
    if generateCombined then
      [{ name := "MoonshineTiny.mlpackage", format := .mlpackage, writer := .externalLibrary }]
    else []
  -- trace_encoder, trace_decoder, convert_encoder_to_coreml,
  -- convert_decoder_to_coreml, then validate_models unless skipped
  let evS : List Event :=
    if generateSplit then
      [⟨.encoder, .wrap⟩, ⟨.encoder, .tracing⟩,
       ⟨.decoder, .wrap⟩, ⟨.decoder, .tracing⟩,
       ⟨.encoder, .converting⟩, ⟨.encoder, .save⟩,
       ⟨.decoder, .converting⟩, ⟨.decoder, .save⟩]
      ++ (if !skipValidation then [⟨.encoder, .validate⟩, ⟨.decoder, .validate⟩] else [])
    else []
  let wS : List FileWrite :=
    if generateSplit then
      [{ name := "MoonshineEncoder.mlpackage", format := .mlpackage, writer := .externalLibrary },
       { name := "MoonshineDecoder.mlpackage", format := .mlpackage, writer := .externalLibrary }]
    else []
  { events := ev0 ++ evC ++ evS,
    writes := w0 ++ wC ++ wS,
    errorLogs := [],
    errorRaised := false,
    exitCode := 0 }

/-! ## `convert_t5.py::main` (lines 549-629)

Flags: `--skip-validation`, `--combined-only`, `--split-only`.
`hasSpModel` is an oracle for `hasattr(tokenizer, "sp_model")` in
`save_tokenizer_vocab`, which additionally saves the SentencePiece
tokenizer files via `tokenizer.save_pretrained`. -/

def t5VocabWrite : FileWrite :=
  { name := "t5_vocab.json", format := .json, writer := .repoCode }

def t5TokenizerWrite : FileWrite :=
  { name := "tokenizer", format := .tokenizerFiles, writer := .externalLibrary }

def t5Main (skipValidation combinedOnly splitOnly hasSpModel : Bool) : RunResult :=
  let generateCombined := !splitOnly
  let generateSplit := !combinedOnly
  let ev0 : List Event :=
    [⟨.model, .load⟩, ⟨.vocabFile, .save⟩]
    ++ (if hasSpModel then [⟨.tokenizerDir, .save⟩] else [])
  let w0 : List FileWrite :=
    [t5VocabWrite] ++ (if hasSpModel then [t5TokenizerWrite] else [])
  -- trace_combined (T5CombinedWrapper + torch.jit.trace), convert_combined_to_coreml
  let evC : List Event :=
    if generateCombined then
      [⟨.combined, .wrap⟩, ⟨.combined, .tracing⟩,
       ⟨.combined, .converting⟩, ⟨.combined, .save⟩]
    else []
  let wC : List FileWrite :=
    if generateCombined then
      [{ name := "T5Small.mlpackage", format := .mlpackage, writer := .externalLibrary }]
    else []
  let evS : List Event :=
    if generateSplit then
      [⟨.encoder, .wrap⟩, ⟨.encoder, .tracing⟩,
       ⟨.decoder, .wrap⟩, ⟨.decoder, .tracing⟩,
       ⟨.encoder, .converting⟩, ⟨.encoder, .save⟩,
       ⟨.decoder, .converting⟩, ⟨.decoder, .save⟩]
      ++ (if !skipValidation then [⟨.encoder, .validate⟩, ⟨.decoder, .validate⟩] else [])
    else []
  let wS : List FileWrite :=
    if generateSplit then
      [{ name := "T5Encoder.mlpackage", format := .mlpackage, writer := .externalLibrary },
       { name := "T5Decoder.mlpackage", format := .mlpackage, writer := .externalLibrary }]
    else []
  { events := ev0 ++ evC ++ evS,
    writes := w0 ++ wC ++ wS,
    errorLogs := [],
    errorRaised := false,
    exitCode := 0 }

/-! ## `convert_silero_vad.py::main` (lines 230-273)

`energyOnly` is the `--energy-only` flag.  `downloadOk`, `convertOk` and
`quantizeOk` are oracles for whether `download_silero_vad`, the
trace/convert/save block inside `convert_to_coreml`, and
`quantization_utils.quantize_weights` raise.  A failed download is caught
by the `except` in `main` (printing "Error: ..."); a failed conversion is
caught inside `convert_to_coreml` (printing "Conversion failed: ...") and
makes it return `None`; a failed quantization is caught and printed as
"Quantization skipped: ...".  On the first two failures `main` falls back
to `create_energy_vad_coreml`.  In every path the script reaches the final
"Done!" banner and exits 0. -/

def energyVadEvents : List Event :=
  [⟨.energyVAD, .wrap⟩, ⟨.energyVAD, .tracing⟩,
   ⟨.energyVAD, .converting⟩, ⟨.energyVAD, .save⟩]

def energyVadWrite : FileWrite :=
  { name := "EnergyVAD.mlpackage", format := .mlpackage, writer := .externalLibrary }

def sileroMain (energyOnly downloadOk convertOk quantizeOk : Bool) : RunResult :=
  if energyOnly then
    { events := energyVadEvents, writes := [energyVadWrite],
      errorLogs := [], errorRaised := false, exitCode := 0 }
  else if !downloadOk then
    -- torch.hub.load raises; caught in main, energy fallback
    { events := energyVadEvents,
      writes := [energyVadWrite],
      errorLogs := ["Error"],
      errorRaised := true,
      exitCode := 0 }
  else if !convertOk then
    -- SileroVADWrapper built and traced, ct.convert raises; caught inside
    -- convert_to_coreml, which returns None; main builds the energy fallback
    { events := [⟨.model, .load⟩,
                 ⟨.sileroVAD, .wrap⟩, ⟨.sileroVAD, .tracing⟩, ⟨.sileroVAD, .converting⟩]
                ++ energyVadEvents,
      writes := [energyVadWrite],
      errorLogs := ["Conversion failed"],
      errorRaised := true,
      exitCode := 0 }
  else if !quantizeOk then
    -- conversion and save succeed; quantize_weights raises, caught and logged
    { events := [⟨.model, .load⟩,
                 ⟨.sileroVAD, .wrap⟩, ⟨.sileroVAD, .tracing⟩,
                 ⟨.sileroVAD, .converting⟩, ⟨.sileroVAD, .save⟩],
      writes := [{ name := "SileroVAD.mlpackage", format := .mlpackage, writer := .externalLibrary }],
      errorLogs := ["Quantization skipped"],
      errorRaised := true,
      exitCode := 0 }
  else
    { events := [⟨.model, .load⟩,
                 ⟨.sileroVAD, .wrap⟩, ⟨.sileroVAD, .tracing⟩,
                 ⟨.sileroVAD, .converting⟩, ⟨.sileroVAD, .save⟩,
                 ⟨.sileroVADfp16, .save⟩],
      writes := [{ name := "SileroVAD.mlpackage", format := .mlpackage, writer := .externalLibrary },
                 { name := "SileroVAD_fp16.mlpackage", format := .mlpackage, writer := .externalLibrary }],
      errorLogs := [],
      errorRaised := false,
      exitCode := 0 }

/-! ## Association-list dictionaries

Python `dict`s are modelled as association lists in insertion order.
`dictGet` is `d[k]` / `d.get(k)`; `dictInsert` is `d[k] = v` (overwrite in
place if the key is present, else append).  A dict comprehension
`{f(x): g(x) for x in xs}` is a left fold of `dictInsert` over `xs`. -/

def dictGet {α β : Type} [BEq α] (m : List (α × β)) (k : α) : Option β :=
  (m.find? (fun p => p.1 == k)).map Prod.snd

def dictInsert {α β : Type} [BEq α] (m : List (α × β)) (k : α) (v : β) : List (α × β) :=
  if m.any (fun p => p.1 == k) then
    m.map (fun p => if p.1 == k then (k, v) else p)
  else
    m ++ [(k, v)]

/-! ## `tools/convert_weights.py` (lines 6-26)

An `.npz` archive is a list of member names (`data.files`) together with
the tensor stored under each name (`data[k]`).  Tensor contents are opaque
to the script; they are modelled as integer lists. -/

abbrev Tensor : Type := List Int

structure NpzArchive where
  files : List String
  get : String → Tensor

/-- `tensors = {k: data[k] for k in data.files}` — the dict handed to
`save_file`.  `data.files` lists each archive member once, so the
comprehension is a plain map. -/
def convertTensors (data : NpzArchive) : List (String × Tensor) :=
  data.files.map (fun k => (k, data.get k))

structure WeightsResult where
  saved : Option (List (String × Tensor))
  events : List Event
  writes : List FileWrite
  errorLogs : List String
  errorRaised : Bool
  exitCode : Nat

/-- `convert(input_path, output_path)`: check the input exists (else exit
1), `np.load` it (`ld = none` models a raised exception), build the tensor
dict, and `save_file` it (`saveOk = false` models a raised exception).
Exceptions from the `try` block are caught, print "Conversion failed: e",
and exit 1. -/
def weightsConvert (inputExists : Bool) (ld : Option NpzArchive) (saveOk : Bool) :
    WeightsResult :=
  if !inputExists then
    { saved := none, events := [], writes := [],
      errorLogs := ["Input file not found"], errorRaised := false, exitCode := 1 }
  else
    match ld with
    | none =>
      { saved := none, events := [⟨.model, .load⟩], writes := [],
        errorLogs := ["Conversion failed"], errorRaised := true, exitCode := 1 }
    | some data =>
      if saveOk then
        { saved := some (convertTensors data),
          events := [⟨.model, .load⟩, ⟨.weightsOut, .save⟩],
          writes := [{ name := "output.safetensors", format := .safetensors,
                       writer := .externalLibrary }],
          errorLogs := [], errorRaised := false, exitCode := 0 }
      else
        { saved := none,
          events := [⟨.model, .load⟩, ⟨.weightsOut, .save⟩],
          writes := [],
          errorLogs := ["Conversion failed"], errorRaised := true, exitCode := 1 }

/-! ## Wrapper modules over abstract pretrained models

The pretrained networks live in external libraries; the wrapper classes in
this repository only re-plumb their forward signatures.  Each pretrained
component is a field of an abstract model structure, and each wrapper
`forward` is embedded as written in the source. -/

/-- The parts of `MoonshineForConditionalGeneration` the encoder wrapper
touches: `model.get_encoder()` called with `attention_mask=None` and
default flags, projected to `.last_hidden_state`. -/
structure MoonshineModelAbs (A H : Type) where
  encoderLastHiddenState : A → H

/-- `MoonshineEncoderWrapper.forward` (convert_moonshine.py lines 63-80):
run the encoder on `input_values` and return its last hidden state. -/
def moonshineEncoderWrapperForward {A H : Type}
    (m : MoonshineModelAbs A H) (input_values : A) : H :=
  m.encoderLastHiddenState input_values

/-- The spec's description of the Moonshine encoder wrapper: it computes
exactly the wrapped encoder's `last_hidden_state` on `input_values`. -/
def moonshineEncoderSpecOutput {A H : Type}
    (m : MoonshineModelAbs A H) (input_values : A) : H :=
  m.encoderLastHiddenState input_values

/-- The parts of `T5ForConditionalGeneration` the decoder wrapper touches:
the shared token embedding, the decoder (called on decoder input
embeddings and encoder hidden states with `use_cache=False` etc.,
projected to `.last_hidden_state`), the `d_model ** -0.5` rescaling, the
LM head, and the `tie_word_embeddings` config bit. -/
structure T5ModelAbs (Tok H V : Type) where
  tie_word_embeddings : Bool
  shared : Tok → H
  decoderLastHiddenState : H → H → H
  scaleByInvSqrtDModel : H → H
  lm_head : H → V

/-- `T5DecoderWrapper.forward` (convert_t5.py lines 105-144): embed the
decoder input ids, run the decoder against the encoder hidden states,
rescale by `d_model ** -0.5` when `config.tie_word_embeddings`, and
project through `lm_head`. -/
def t5DecoderWrapperForward {Tok H V : Type}
    (m : T5ModelAbs Tok H V) (decoder_input_ids : Tok)
    (encoder_hidden_states : H) : V :=
  let decoder_inputs_embeds := m.shared decoder_input_ids
  let sequence_output := m.decoderLastHiddenState decoder_inputs_embeds encoder_hidden_states
  let sequence_output :=
    if m.tie_word_embeddings then m.scaleByInvSqrtDModel sequence_output
    else sequence_output
  m.lm_head sequence_output

/-- The spec's description of the T5 decoder wrapper: the wrapped
decoder's last hidden state projected through `lm_head`, scaled by
`d_model ** -0.5` exactly when `config.tie_word_embeddings` holds. -/
def t5DecoderSpecOutput {Tok H V : Type}
    (m : T5ModelAbs Tok H V) (decoder_input_ids : Tok)
    (encoder_hidden_states : H) : V :=
  if m.tie_word_embeddings then
    m.lm_head (m.scaleByInvSqrtDModel
      (m.decoderLastHiddenState (m.shared decoder_input_ids) encoder_hidden_states))
  else
    m.lm_head
      (m.decoderLastHiddenState (m.shared decoder_input_ids) encoder_hidden_states)

/-- The part of the Silero VAD model the wrapper touches: the stateless
call `self.model(audio, 16000)`. -/
structure SileroModelAbs (A P : Type) where
  run : A → Int → P

/-- `SileroVADWrapper.forward` (convert_silero_vad.py lines 70-94): call
the original model on the audio with `sr=16000` and return the received
`h` and `c` as `h_out` and `c_out`. -/
def sileroVADWrapperForward {A P S : Type}
    (m : SileroModelAbs A P) (audio : A) (h c : S) : P × S × S :=
  (m.run audio 16000, h, c)

/-! ## Tokenizer vocabulary inversion

`save_tokenizer_vocab` (convert_moonshine.py lines 496-528, convert_t5.py
lines 503-546) builds `id_to_token = {v: k for k, v in vocab.items()}`,
a Python dict comprehension over the `vocab` dict's items. -/

/-- `id_to_token = {v: k for k, v in vocab.items()}`. -/
def invertVocab (vocab : List (String × Int)) : List (Int × String) :=
  vocab.foldl (fun acc p => dictInsert acc p.2 p.1) []

/-! ## Predicates used by the claims -/

/-- Every file write conforms to the write discipline observable in the
sources: JSON vocabulary files come from repository code
(`open` + `json.dump`); mlpackage, safetensors and tokenizer files come
from external libraries. -/
def writeConforms (w : FileWrite) : Bool :=
  match w.format, w.writer with
  | .json, .repoCode => true
  | .mlpackage, .externalLibrary => true
  | .safetensors, .externalLibrary => true
  | .tokenizerFiles, .externalLibrary => true
  | _, _ => false

/-- All writes are tokenizer-vocabulary artifacts (JSON vocab file or the
saved tokenizer files); in particular nothing is an `.mlpackage`. -/
def tokenizerOnlyWrites (ws : List FileWrite) : Bool :=
  ws.all (fun w => w.format == FileFormat.json || w.format == FileFormat.tokenizerFiles)

/-- No model is traced, converted or validated anywhere in the trace. -/
def noModelWork (evs : List Event) : Bool :=
  evs.all (fun e =>
    !(e.step == Step.tracing) && !(e.step == Step.converting) && !(e.step == Step.validate))

/-- A concrete two-member archive used to instantiate the theorems. -/
def weightsSampleArchive : NpzArchive :=
  { files := ["w1", "w2"],
    get := fun k => if k = "w1" then ([1, 2] : Tensor) else ([3] : Tensor) }

/-- A concrete two-token vocabulary used to instantiate the theorems. -/
def sampleVocab : List (String × Int) := [("hello", 5), ("world", 7)]

/-! ## Helper lemmas -/

theorem dictGet_cons {α β : Type} [BEq α] (k : α) (v : β) (t : List (α × β)) (x : α) :
    dictGet ((k, v) :: t) x = if (k == x) = true then some v else dictGet t x := by
  by_cases h : (k == x) = true
  · simp only [dictGet, if_pos h]
    rw [List.find?_cons_of_pos _ (by simpa using h)]
    rfl
  · simp only [dictGet, if_neg h]
    rw [List.find?_cons_of_neg _ (by simpa using h)]

theorem dictGet_map_pair {α β : Type} [BEq α] [LawfulBEq α]
    (f : α → β) (l : List α) (k : α) (hk : k ∈ l) :
    dictGet (l.map (fun s => (s, f s))) k = some (f k) := by
  induction l with
  | nil => cases hk
  | cons a t ih =>
    simp only [List.map_cons]
    rcases List.mem_cons.mp hk with h | h
    · subst h
      rw [dictGet_cons]
      simp
    · rw [dictGet_cons]
      by_cases hax : (a == k) = true
      · have : a = k := by simpa using hax
        subst this
        simp
      · rw [if_neg hax]
        exact ih h

theorem convertTensors_keys (data : NpzArchive) :
    (convertTensors data).map Prod.fst = data.files := by
  simp [convertTensors, List.map_map, Function.comp_def]

theorem dictInsert_of_fresh_key {α β : Type} [BEq α] [LawfulBEq α]
    (m : List (α × β)) (k : α) (v : β) (h : ∀ p ∈ m, p.1 ≠ k) :
    dictInsert m k v = m ++ [(k, v)] := by
  have hany : m.any (fun p => p.1 == k) = false := by
    rw [List.any_eq_false]
    intro p hp
    simpa using h p hp
  simp [dictInsert, hany]

theorem invertVocab_foldl (vocab : List (String × Int)) :
    ∀ acc : List (Int × String),
      (vocab.map Prod.snd).Nodup →
      (∀ i ∈ vocab.map Prod.snd, ∀ p ∈ acc, p.1 ≠ i) →
      vocab.foldl (fun acc p => dictInsert acc p.2 p.1) acc
        = acc ++ vocab.map (fun p => (p.2, p.1)) := by
  induction vocab with
  | nil => intro acc _ _; simp
  | cons q t ih =>
    intro acc hnd hdis
    have hnd' : (q.2 :: t.map Prod.snd).Nodup := by simpa using hnd
    have hq2 : q.2 ∉ t.map Prod.snd := (List.nodup_cons.mp hnd').1
    have hndt : (t.map Prod.snd).Nodup := (List.nodup_cons.mp hnd').2
    simp only [List.foldl_cons]
    rw [dictInsert_of_fresh_key _ _ _ (fun p hp => hdis q.2 (by simp) p hp)]
    rw [ih (acc ++ [(q.2, q.1)]) hndt ?fresh]
    · simp
    case fresh =>
      intro i hi p hp
      rcases List.mem_append.mp hp with hp | hp
      · exact hdis i (by simp [hi]) p hp
      · have hpq : p = (q.2, q.1) := by simpa using hp
        subst hpq
        intro hqi
        have hqi' : q.2 = i := hqi
        exact hq2 (hqi' ▸ hi)

theorem invertVocab_eq_map_swap (vocab : List (String × Int))
    (hids : (vocab.map Prod.snd).Nodup) :
    invertVocab vocab = vocab.map (fun p => (p.2, p.1)) := by
  have := invertVocab_foldl vocab [] hids (by intro i _ p hp; cases hp)
  simpa [invertVocab] using this

theorem dictGet_map_swap_of_mem (vocab : List (String × Int))
    (hids : (vocab.map Prod.snd).Nodup) (t : String) (i : Int)
    (hmem : (t, i) ∈ vocab) :
    dictGet (vocab.map (fun p => (p.2, p.1))) i = some t := by
  induction vocab with
  | nil => cases hmem
  | cons q r ih =>
    have hnd' : (q.2 :: r.map Prod.snd).Nodup := by simpa using hids
    have hq2 : q.2 ∉ r.map Prod.snd := (List.nodup_cons.mp hnd').1
    have hndr : (r.map Prod.snd).Nodup := (List.nodup_cons.mp hnd').2
    simp only [List.map_cons]
    rcases List.mem_cons.mp hmem with h | h
    · have hq : q = (t, i) := h.symm
      subst hq
      rw [dictGet_cons]
      simp
    · have hir : i ∈ r.map Prod.snd := by
        exact List.mem_map.mpr ⟨(t, i), h, rfl⟩
      have hne : ¬((q.2 == i) = true) := by
        intro hb
        exact hq2 ((eq_of_beq hb) ▸ hir)
      rw [dictGet_cons, if_neg hne]
      exact ih hndr h

theorem dictGet_vocab_of_mem (vocab : List (String × Int))
    (hkeys : (vocab.map Prod.fst).Nodup) (t : String) (i : Int)
    (hmem : (t, i) ∈ vocab) :
    dictGet vocab t = some i := by
  induction vocab with
  | nil => cases hmem
  | cons q r ih =>
    have hnd' : (q.1 :: r.map Prod.fst).Nodup := by simpa using hkeys
    have hq1 : q.1 ∉ r.map Prod.fst := (List.nodup_cons.mp hnd').1
    have hndr : (r.map Prod.fst).Nodup := (List.nodup_cons.mp hnd').2
    rcases List.mem_cons.mp hmem with h | h
    · have hq : q = (t, i) := h.symm
      subst hq
      rw [dictGet_cons]
      simp
    · have htr : t ∈ r.map Prod.fst := by
        exact List.mem_map.mpr ⟨(t, i), h, rfl⟩
      have hne : ¬((q.1 == t) = true) := by
        intro hb
        exact hq1 ((eq_of_beq hb) ▸ htr)
      have hq : q = (q.1, q.2) := rfl
      rw [hq, dictGet_cons, if_neg hne]
      exact ih hndr h

theorem min_audio_samples_eq : MIN_AUDIO_SAMPLES = 16000 := by
  norm_num [MIN_AUDIO_SAMPLES, pyInt, MIN_AUDIO_SECONDS, SAMPLE_RATE]
  decide

theorem max_audio_samples_eq : MAX_AUDIO_SAMPLES = 480000 := by
  norm_num [MAX_AUDIO_SAMPLES, pyInt, MAX_AUDIO_SECONDS, SAMPLE_RATE]
  decide

theorem default_audio_samples_eq : DEFAULT_AUDIO_SAMPLES = 80000 := by
  norm_num [DEFAULT_AUDIO_SAMPLES, pyInt, DEFAULT_AUDIO_SECONDS, SAMPLE_RATE]
  decide

/-! ## Claims -/

/-- Claim C1: for every call `convert(input_path, output_path)` in
`convert_weights.py` where the input exists and `np.load` succeeds (and
`save_file` does not raise), the safetensors file is saved with exactly
the archive's key-to-tensor mapping: the saved keys are `data.files` and
each key maps to the archive's tensor for that key, unchanged. -/
theorem c1_convert_saves_archive_mapping (data : NpzArchive) :
    (weightsConvert true (some data) true).saved = some (convertTensors data)
    ∧ (convertTensors data).map Prod.fst = data.files
    ∧ ∀ k, k ∈ data.files → dictGet (convertTensors data) k = some (data.get k) := by
  refine ⟨rfl, convertTensors_keys data, ?_⟩
  intro k hk
  exact dictGet_map_pair data.get data.files k hk

/-- Witness for C1 at a concrete two-member archive. -/
theorem c1_convert_saves_archive_mapping_witness :
    (weightsConvert true (some weightsSampleArchive) true).saved
        = some (convertTensors weightsSampleArchive)
    ∧ (convertTensors weightsSampleArchive).map Prod.fst = weightsSampleArchive.files
    ∧ dictGet (convertTensors weightsSampleArchive) "w1" = some (weightsSampleArchive.get "w1")
    ∧ dictGet (convertTensors weightsSampleArchive) "w2" = some (weightsSampleArchive.get "w2") :=
  ⟨(c1_convert_saves_archive_mapping weightsSampleArchive).1,
   (c1_convert_saves_archive_mapping weightsSampleArchive).2.1,
   (c1_convert_saves_archive_mapping weightsSampleArchive).2.2 "w1" (by decide),
   (c1_convert_saves_archive_mapping weightsSampleArchive).2.2 "w2" (by decide)⟩

/-- Claim C2 counterexample: in `convert_silero_vad.py`, when `ct.convert`
raises inside `convert_to_coreml`, the error is caught and logged
("Conversion failed: ..."), but the script falls back to the energy-based
VAD and exits with code 0 — not non-zero as the claim states. -/
theorem c2_counterexample_silero_exit_zero :
    (sileroMain false true false true).errorRaised = true
    ∧ "Conversion failed" ∈ (sileroMain false true false true).errorLogs
    ∧ (sileroMain false true false true).exitCode = 0 := by
  decide

/-- Claim C2 (amended): in `convert_weights.py` a conversion error is
caught, logged, and the process exits with code 1; in
`convert_silero_vad.py` conversion errors are caught and logged, but the
script continues (falling back to the energy-based VAD where applicable)
and exits with code 0. -/
theorem c2_amended_error_handling :
    (∀ (ie : Bool) (ld : Option NpzArchive) (so : Bool),
      (weightsConvert ie ld so).errorRaised = true →
        (weightsConvert ie ld so).exitCode = 1
        ∧ (weightsConvert ie ld so).errorLogs ≠ [])
    ∧ (∀ eo dok cok qok : Bool,
      (sileroMain eo dok cok qok).errorRaised = true →
        (sileroMain eo dok cok qok).exitCode = 0
        ∧ (sileroMain eo dok cok qok).errorLogs ≠ []) := by
  constructor
  · intro ie ld so h
    cases ie <;> rcases ld with _ | d <;> cases so <;> simp_all [weightsConvert]
  · decide

/-- Witness for C2 (amended): a failed `np.load` in `convert_weights.py`
and a failed `ct.convert` in `convert_silero_vad.py`. -/
theorem c2_amended_error_handling_witness :
    (weightsConvert true none true).errorRaised = true
    ∧ ((weightsConvert true none true).exitCode = 1
       ∧ (weightsConvert true none true).errorLogs ≠ [])
    ∧ (sileroMain false true false true).errorRaised = true
    ∧ ((sileroMain false true false true).exitCode = 0
       ∧ (sileroMain false true false true).errorLogs ≠ []) :=
  ⟨by decide,
   c2_amended_error_handling.1 true none true (by decide),
   by decide,
   c2_amended_error_handling.2 false true false true (by decide)⟩

/-- Claim C3: the Moonshine encoder's CoreML input `input_values` is
declared with batch size 1 and a variable audio-length dimension with
lower bound 16000, upper bound 480000 and default 80000 samples — exactly
1, 30 and 5 seconds of audio at 16 kHz. -/
theorem c3_moonshine_encoder_input_shape :
    moonshineEncoderInputs =
      [{ name := "input_values",
         shape := [.fixed 1, .range ⟨16000, 480000, 80000⟩],
         dtype := .float32 }]
    ∧ MIN_AUDIO_SAMPLES = 1 * SAMPLE_RATE
    ∧ MAX_AUDIO_SAMPLES = 30 * SAMPLE_RATE
    ∧ DEFAULT_AUDIO_SAMPLES = 5 * SAMPLE_RATE := by
  refine ⟨?_, ?_, ?_, ?_⟩
  · simp [moonshineEncoderInputs, min_audio_samples_eq, max_audio_samples_eq,
      default_audio_samples_eq]
  · rw [min_audio_samples_eq]; decide
  · rw [max_audio_samples_eq]; decide
  · rw [default_audio_samples_eq]; decide

/-- Claim C4: each wrapper module only re-shapes the call signature.
`MoonshineEncoderWrapper.forward` equals the wrapped encoder's
`last_hidden_state` on `input_values`, and `T5DecoderWrapper.forward`
equals the wrapped decoder's last hidden state projected through
`lm_head`, scaled by `d_model ** -0.5` exactly when
`config.tie_word_embeddings` holds. -/
theorem c4_wrappers_reshape_only {A H Tok Hd V : Type}
    (mm : MoonshineModelAbs A H) (input_values : A)
    (mt : T5ModelAbs Tok Hd V) (decoder_input_ids : Tok)
    (encoder_hidden_states : Hd) :
    moonshineEncoderWrapperForward mm input_values
        = moonshineEncoderSpecOutput mm input_values
    ∧ t5DecoderWrapperForward mt decoder_input_ids encoder_hidden_states
        = t5DecoderSpecOutput mt decoder_input_ids encoder_hidden_states := by
  constructor
  · rfl
  · cases h : mt.tie_word_embeddings <;>
      simp [t5DecoderWrapperForward, t5DecoderSpecOutput, h]

/-- Claim C5: every invocation of each converter script performs its steps
in the fixed per-artifact order load < wrap < trace < convert < save
(< validate), with no step repeated for the same artifact, and the run
terminates with its exit code after the trace (exit 0 on these paths). -/
theorem c5_linear_pipeline :
    (∀ sv nq co so : Bool,
      linearRun (moonshineMain sv nq co so).events = true
      ∧ (moonshineMain sv nq co so).exitCode = 0)
    ∧ (∀ sv co so hs : Bool,
      linearRun (t5Main sv co so hs).events = true
      ∧ (t5Main sv co so hs).exitCode = 0)
    ∧ (∀ eo dok cok qok : Bool,
      linearRun (sileroMain eo dok cok qok).events = true
      ∧ (sileroMain eo dok cok qok).exitCode = 0)
    ∧ (∀ (ie : Bool) (ld : Option NpzArchive) (so : Bool),
      linearRun (weightsConvert ie ld so).events = true) := by
  refine ⟨by decide, by decide, by decide, ?_⟩
  intro ie ld so
  cases ie <;> rcases ld with _ | d <;> cases so <;> rfl

/-- Claim C6 counterexample: `convert_moonshine.py` writes
`moonshine_vocab.json` — a JSON file, neither safetensors nor mlpackage —
from repository code (`open` + `json.dump`), on its default invocation. -/
theorem c6_counterexample_vocab_json :
    moonshineVocabWrite ∈ (moonshineMain false false false false).writes
    ∧ moonshineVocabWrite.format ≠ FileFormat.safetensors
    ∧ moonshineVocabWrite.format ≠ FileFormat.mlpackage
    ∧ moonshineVocabWrite.writer = Writer.repoCode := by
  decide

/-- Claim C6 (amended): besides the mlpackage and safetensors outputs,
which are written by external libraries, the CoreML scripts also write
tokenizer vocabulary JSON files from repository code (and `convert_t5.py`
may save tokenizer files via the transformers library).  Every write
conforms to this discipline: JSON files are written by repository code and
mlpackage/safetensors/tokenizer files by external libraries. -/
theorem c6_amended_write_discipline :
    (∀ sv nq co so : Bool,
      ((moonshineMain sv nq co so).writes.all writeConforms) = true)
    ∧ (∀ sv co so hs : Bool,
      ((t5Main sv co so hs).writes.all writeConforms) = true)
    ∧ (∀ eo dok cok qok : Bool,
      ((sileroMain eo dok cok qok).writes.all writeConforms) = true)
    ∧ (∀ (ie : Bool) (ld : Option NpzArchive) (so : Bool),
      ((weightsConvert ie ld so).writes.all writeConforms) = true) := by
  refine ⟨by decide, by decide, by decide, ?_⟩
  intro ie ld so
  cases ie <;> rcases ld with _ | d <;> cases so <;> rfl

/-- Claim C7: every converted T5 CoreML model declares its token-sequence
inputs with batch size 1 and variable length bounded between 1 and 512:
the encoder's `input_ids` and the combined model's `input_ids` default to
64; the decoder's and the combined model's `decoder_input_ids` default
to 1. -/
theorem c7_t5_token_sequence_inputs :
    t5EncoderInputs =
      [{ name := "input_ids",
         shape := [.fixed 1, .range ⟨1, 512, 64⟩],
         dtype := .int32 }]
    ∧ t5DecoderInputs =
      [{ name := "decoder_input_ids",
         shape := [.fixed 1, .range ⟨1, 512, 1⟩],
         dtype := .int32 },
       { name := "encoder_hidden_states",
         shape := [.fixed 1, .range ⟨1, 512, 64⟩, .symbolic "d_model"],
         dtype := .float32 }]
    ∧ t5CombinedInputs =
      [{ name := "input_ids",
         shape := [.fixed 1, .range ⟨1, 512, 64⟩],
         dtype := .int32 },
       { name := "decoder_input_ids",
         shape := [.fixed 1, .range ⟨1, 512, 1⟩],
         dtype := .int32 }] := by
  decide

/-- Claim C8: `SileroVADWrapper.forward` returns its `h` and `c`
arguments unchanged as `h_out` and `c_out`, for every audio input. -/
theorem c8_silero_state_passthrough {A P S : Type}
    (m : SileroModelAbs A P) (audio : A) (h c : S) :
    (sileroVADWrapperForward m audio h c).2.1 = h
    ∧ (sileroVADWrapperForward m audio h c).2.2 = c :=
  ⟨rfl, rfl⟩

/-- Claim C9: in the vocabulary file written by `save_tokenizer_vocab`,
`id_to_token` is the inverse of `vocab`: when `vocab` is a dict (distinct
tokens) assigning distinct ids, every entry `(t, i)` satisfies
`id_to_token[vocab[t]] = t`, and the round trip token → id → token is the
identity. -/
theorem c9_id_to_token_inverse (vocab : List (String × Int))
    (hkeys : (vocab.map Prod.fst).Nodup)
    (hids : (vocab.map Prod.snd).Nodup) :
    ∀ t i, (t, i) ∈ vocab →
      dictGet (invertVocab vocab) i = some t
      ∧ dictGet vocab t = some i
      ∧ (dictGet vocab t).bind (fun j => dictGet (invertVocab vocab) j) = some t := by
  intro t i hmem
  have h1 : dictGet (invertVocab vocab) i = some t := by
    rw [invertVocab_eq_map_swap vocab hids]
    exact dictGet_map_swap_of_mem vocab hids t i hmem
  have h2 : dictGet vocab t = some i := dictGet_vocab_of_mem vocab hkeys t i hmem
  exact ⟨h1, h2, by rw [h2]; simpa using h1⟩

/-- Witness for C9 at a concrete two-token vocabulary. -/
theorem c9_id_to_token_inverse_witness :
    (sampleVocab.map Prod.fst).Nodup
    ∧ (sampleVocab.map Prod.snd).Nodup
    ∧ (dictGet (invertVocab sampleVocab) 5 = some "hello"
       ∧ dictGet sampleVocab "hello" = some 5
       ∧ (dictGet sampleVocab "hello").bind
           (fun j => dictGet (invertVocab sampleVocab) j) = some "hello") :=
  ⟨by decide, by decide,
   c9_id_to_token_inverse sampleVocab (by decide) (by decide) "hello" 5 (by decide)⟩

/-- Claim C10: with both `--combined-only` and `--split-only`,
`convert_moonshine.py` and `convert_t5.py` write no `.mlpackage` at all —
only the tokenizer vocabulary artifacts — and exit 0 without tracing,
converting, or validating any model. -/
theorem c10_both_flags_vocab_only :
    ∀ sv nq hs : Bool,
      (tokenizerOnlyWrites (moonshineMain sv nq true true).writes = true
       ∧ moonshineVocabWrite ∈ (moonshineMain sv nq true true).writes
       ∧ noModelWork (moonshineMain sv nq true true).events = true
       ∧ (moonshineMain sv nq true true).exitCode = 0)
      ∧ (tokenizerOnlyWrites (t5Main sv true true hs).writes = true
       ∧ t5VocabWrite ∈ (t5Main sv true true hs).writes
       ∧ noModelWork (t5Main sv true true hs).events = true
       ∧ (t5Main sv true true hs).exitCode = 0) := by
  decide

end Flow
